import Mathlib

/-!
# Verification of the interview session lifecycle and question pipeline

Shallow embedding of the core of the `hr-interview-agent` repository:

* `src/hr_agent/server/main.py` — interview session endpoints
  (`start_interview`, `submit_response`, `get_interview_results`) and the
  question-generation helpers (`extract_keywords`,
  `extract_questions_from_text`, `generate_questions_locally`,
  `build_questions_payload`, `GenerateRequest.desired_question_count`);
* `src/hr_agent/server/data_manager.py` — session/transcript store
  (`add_session_response`, `get_session_responses_with_transcripts`);
* `src/hr_agent/api/scoring.py` — standalone scoring endpoint
  (`call_ollama_gemma`, `parse_evaluation_scores`, `extract_score`).

Modelling conventions:

* Python strings are handled through explicit `List Char` functions that
  mirror the Python semantics used by the source (whitespace split, strip,
  substring search, the concrete regular expressions appearing in the code).
* Wall-clock values (`datetime.now()`, `submitted_at`, `created_at`,
  `timestamp` fields) carry no logic in the source and are omitted.
* Transcript ids are abstracted to indices into the transcript store; the
  source derives unique non-empty strings from
  `(session_id, question_index, timestamp)`, so a stored id is always
  "truthy" in the Python sense.
* Python `float` scores are modelled as exact rationals `ℚ`; the fallback
  and parsing logic of the source only does field extraction, means and
  halving, which the claims state in exact arithmetic.
* HTTP gateways (`requests.post` to Ollama) are modelled as an explicit
  outcome parameter: a response with a status code and body, or a raised
  exception.  File-system writes of the data manager are assumed to
  succeed (their `IOError` branches only log and return `None`).
-/

namespace HRAgent

/-! ## Python-style string primitives (on `List Char`) -/

/-- Python whitespace for `str.split()` / `str.strip()` / regex `\s`
(ASCII subset: space, tab, newline, carriage return, vertical tab, form feed). -/
def pySpace (c : Char) : Bool :=
  c == ' ' || c == '\t' || c == '\n' || c == '\r' || c == '\x0b' || c == '\x0c'

/-- `str.split()` with no argument: split on whitespace runs, dropping empty pieces. -/
def splitWsAux : List Char → List Char → List (List Char)
  | [], cur => if cur.isEmpty then [] else [cur.reverse]
  | c :: cs, cur =>
    if pySpace c then
      if cur.isEmpty then splitWsAux cs [] else cur.reverse :: splitWsAux cs []
    else splitWsAux cs (c :: cur)

/-- Number of words of a Python string, i.e. `len(s.split())`. -/
def wordCount (s : String) : Nat :=
  (splitWsAux s.data []).length

/-- Split on a single separator character (Python `s.split(sep)` keeps empty pieces). -/
def splitOnChar (sep : Char) : List Char → List (List Char)
  | [] => [[]]
  | c :: cs =>
    if c == sep then [] :: splitOnChar sep cs
    else match splitOnChar sep cs with
      | [] => [[c]]
      | p :: ps => (c :: p) :: ps

/-- Strip characters satisfying `p` from the front. -/
def dropWhileP (p : Char → Bool) : List Char → List Char
  | [] => []
  | c :: cs => if p c then dropWhileP p cs else c :: cs

/-- Python `str.strip()` (strip whitespace on both ends). -/
def pyStripL (cs : List Char) : List Char :=
  (dropWhileP pySpace (dropWhileP pySpace cs.reverse).reverse)

/-- Python `str.rstrip(chars)` restricted to a single character. -/
def pyRstripChar (c : Char) (cs : List Char) : List Char :=
  (dropWhileP (· == c) cs.reverse).reverse

/-- Python `str.strip(chars)` for an explicit character set. -/
def pyStripChars (set : List Char) (cs : List Char) : List Char :=
  let p := fun c => set.contains c
  (dropWhileP p (dropWhileP p cs.reverse).reverse)

/-- Does `s` start with `pat`? (`str.startswith`). -/
def startsWithL : List Char → List Char → Bool
  | [], _ => true
  | _ :: _, [] => false
  | p :: ps, c :: cs => p == c && startsWithL ps cs

/-- Substring containment, the Python `pat in s` test. -/
def containsSub (pat : List Char) : List Char → Bool
  | [] => pat.isEmpty
  | c :: cs => startsWithL pat (c :: cs) || containsSub pat cs

/-- Index of the first occurrence of `pat` in `s` (`str.find`, `None` for `-1`). -/
def findSubIdx (pat : List Char) : List Char → Option Nat
  | [] => if pat.isEmpty then some 0 else none
  | c :: cs =>
    if startsWithL pat (c :: cs) then some 0
    else (findSubIdx pat cs).map (· + 1)

/-- ASCII lowercase map, the effect of `str.lower()` on the ASCII inputs the
source manipulates. -/
def asciiLowerChar (c : Char) : Char :=
  if 'A' ≤ c ∧ c ≤ 'Z' then Char.ofNat (c.toNat + 32) else c

def asciiLower (cs : List Char) : List Char := cs.map asciiLowerChar

/-- Python `s.replace(pat, repl)` (all non-overlapping occurrences, left to
right).  The fuel is the input length; every step consumes at least one input
character (an empty pattern is never replaced), so the fuel never runs out. -/
def replaceAllGo (pat repl : List Char) : Nat → List Char → List Char
  | 0, cs => cs
  | _ + 1, [] => []
  | fuel + 1, c :: cs =>
    if startsWithL pat (c :: cs) ∧ ¬pat.isEmpty then
      repl ++ replaceAllGo pat repl fuel ((c :: cs).drop pat.length)
    else
      c :: replaceAllGo pat repl fuel cs

def replaceAll (pat repl : List Char) (cs : List Char) : List Char :=
  replaceAllGo pat repl cs.length cs

/-- Python `s.split(pat, 1)[0]`: the part before the first occurrence of `pat`. -/
def takeBeforeSub (pat : List Char) (cs : List Char) : List Char :=
  match findSubIdx pat cs with
  | some i => cs.take i
  | none => cs

/-- Python truthiness of an optional string: `None` and `""` are falsy. -/
def strOptTruthy : Option String → Bool
  | none => false
  | some s => !s.data.isEmpty

/-- Python `a or b` on optional strings (returns `b` whenever `a` is falsy). -/
def pyOrStr (a b : Option String) : Option String :=
  if strOptTruthy a then a else b

/-- `str.splitlines()`: break on `\n`, `\r`, `\r\n`; no trailing empty piece. -/
def splitLinesAux : List Char → List Char → List (List Char)
  | [], cur => if cur.isEmpty then [] else [cur.reverse]
  | '\r' :: '\n' :: cs, cur => cur.reverse :: splitLinesAux cs []
  | '\r' :: cs, cur => cur.reverse :: splitLinesAux cs []
  | '\n' :: cs, cur => cur.reverse :: splitLinesAux cs []
  | c :: cs, cur => splitLinesAux cs (c :: cur)

def splitLinesPy (s : String) : List String :=
  (splitLinesAux s.data []).map List.asString

/-- Python list slicing `l[:n]` for a possibly negative `n`. -/
def pyTake (n : Int) (l : List α) : List α :=
  if 0 ≤ n then l.take n.toNat
  else l.take ((l.length : Int) + n).toNat

/-- Python `l[i]` with negative indexing; `none` models an `IndexError`. -/
def pyListGet (l : List α) (i : Int) : Option α :=
  if 0 ≤ i then l.get? i.toNat
  else
    let j := (l.length : Int) + i
    if 0 ≤ j then l.get? j.toNat else none

/-! ## Data model

`Session` mirrors the dictionary created by `start_interview`
(`src/hr_agent/server/main.py`), `RespEntry` the per-question response
records written by `DataManager.add_session_response`, and `Transcript`
the records written by `DataManager.store_transcript`
(`src/hr_agent/server/data_manager.py`). -/

inductive SessionStatus
  | active
  | completed
  deriving DecidableEq, Repr

structure RespEntry where
  question_index : Int
  transcript_id : Nat
  deriving DecidableEq, Repr

structure Transcript where
  question_index : Int
  text : String
  deriving DecidableEq, Repr

structure Session where
  candidate_name : Option String
  job_role : Option String
  job_description : Option String
  questions : List String
  current_question : Int
  status : SessionStatus
  question_source : String
  used_fallback : Bool
  responses : List RespEntry
  deriving DecidableEq, Repr

/-- The store state relevant to one session: the session record plus the
transcript store (`DataManager` directories), transcript ids being store
indices. -/
structure SysState where
  session : Session
  transcripts : List Transcript
  deriving DecidableEq, Repr

/-! ## `DataManager.add_session_response`

The source scans `session['responses']` for the first entry whose
`question_index` matches, overwrites it in place if found, and appends
otherwise.  `upsertResponse` is that loop written as structural recursion. -/

def upsertResponse (qi : Int) (entry : RespEntry) : List RespEntry → List RespEntry
  | [] => [entry]
  | r :: rs =>
    if r.question_index == qi then entry :: rs
    else r :: upsertResponse qi entry rs

def addSessionResponse (s : Session) (qi : Int) (tid : Nat) : Session :=
  { s with responses := upsertResponse qi ⟨qi, tid⟩ s.responses }

/-! ## `submit_response` (`src/hr_agent/server/main.py`, `/interview/submit`)

When no transcript id is supplied the endpoint stores a sentinel "skipped"
transcript first; the stored (or supplied) id is then verified against the
store, the response entry is upserted, and the session progress is updated:
`current_question = question_index + 1` unconditionally, with the status
set to `completed` when `current_question >= len(questions)`. -/

inductive ApiError
  | notFound (detail : String)
  | badRequest (detail : String)
  | failedPrecondition (detail : String)
  | invalidInput (detail : String)
  | internalError (detail : String)
  deriving DecidableEq, Repr

structure SubmitResult where
  transcript : String
  transcript_id : Nat
  session_status : SessionStatus
  next_question_index : Int
  deriving DecidableEq, Repr

def skippedSentinel : String := "[Question was skipped by the candidate]"

def submitOp (σ : SysState) (question_index : Int) (tid? : Option Nat) :
    SysState × Except ApiError SubmitResult :=
  let (σ1, tid) :=
    match tid? with
    | none =>
      ({ σ with transcripts :=
          σ.transcripts ++ [(⟨question_index, skippedSentinel⟩ : Transcript)] },
        σ.transcripts.length)
    | some t => (σ, t)
  match σ1.transcripts.get? tid with
  | none => (σ1, .error (.badRequest "Transcript not found"))
  | some tr =>
    let s1 := addSessionResponse σ1.session question_index tid
    let cq : Int := question_index + 1
    let st := if cq ≥ (s1.questions.length : Int) then SessionStatus.completed else s1.status
    let s2 := { s1 with current_question := cq, status := st }
    ({ σ1 with session := s2 },
      .ok { transcript := tr.text, transcript_id := tid,
            session_status := st, next_question_index := cq })

/-! ## Question generation (`src/hr_agent/server/main.py`)

`STOP_WORDS`, `TEMPLATES_KEYWORD`, `TEMPLATES_GENERAL` are the module-level
constants; the `{keyword}`/`{role}` `str.format` placeholders become string
concatenation. -/

def STOP_WORDS : List String :=
  ["the", "and", "with", "from", "this", "that", "have", "will", "your",
   "about", "using", "experience", "skills", "team", "work", "role",
   "responsibilities", "ability", "strong", "knowledge", "prior", "must",
   "should", "high", "level", "for", "collaborate", "understanding", "tools",
   "software", "across", "years", "such", "including", "support", "business",
   "drive", "create", "range", "excellent", "communication", "solve",
   "build", "focus", "design", "deliver", "manage", "ensure"]

def TEMPLATES_KEYWORD : List (String → String → String) :=
  [fun _ kw => "Can you walk me through a recent project where you applied " ++ kw ++ "?",
   fun _ kw => "How do you stay current with best practices around " ++ kw ++ "?",
   fun _ kw => "Describe a complex challenge involving " ++ kw ++ " and how you solved it.",
   fun role kw => "How would you leverage " ++ kw ++ " to deliver value as a " ++ role ++ "?",
   fun _ kw => "Tell me about a time you led a team while focusing on " ++ kw ++ ".",
   fun _ kw => "What metrics do you track to measure success when working with " ++ kw ++ "?",
   fun _ kw => "How do you mentor teammates who are newer to " ++ kw ++ "?"]

def TEMPLATES_GENERAL : List (String → String) :=
  [fun role => "What excites you most about contributing as a " ++ role ++ "?",
   fun _ => "How do you prioritize competing deadlines in a fast-paced environment?",
   fun _ => "Describe how you ensure communication stays clear across cross-functional partners.",
   fun role => "Walk me through your approach to planning the first 90 days in this " ++ role ++ " role.",
   fun _ => "How do you evaluate whether a solution truly solved the original problem?"]

/-- Start of a token of the regex `[A-Za-z][A-Za-z0-9+\-#]*`. -/
def tokenStart (c : Char) : Bool :=
  ('a' ≤ c && c ≤ 'z') || ('A' ≤ c && c ≤ 'Z')

def tokenCont (c : Char) : Bool :=
  tokenStart c || ('0' ≤ c && c ≤ '9') || c == '+' || c == '-' || c == '#'

theorem dropWhileP_length_le (p : Char → Bool) (l : List Char) :
    (dropWhileP p l).length ≤ l.length := by
  induction l with
  | nil => simp [dropWhileP]
  | cons c cs ih =>
    simp only [dropWhileP]
    split
    · exact Nat.le_succ_of_le ih
    · simp

/-- `re.findall(r"[A-Za-z][A-Za-z0-9+\-#]*", text)`.  Fuel is the input
length; each step consumes at least one character. -/
def tokenizeGo : Nat → List Char → List (List Char)
  | 0, _ => []
  | _ + 1, [] => []
  | fuel + 1, c :: cs =>
    if tokenStart c then
      (c :: cs.takeWhile tokenCont) :: tokenizeGo fuel (dropWhileP tokenCont cs)
    else tokenizeGo fuel cs

def tokenizeAux (cs : List Char) : List (List Char) :=
  tokenizeGo cs.length cs

/-- `extract_keywords` main loop: skip short/stop-word tokens, deduplicate
preserving order, stop once `max_keywords` are collected. -/
def extractKeywordsLoop (maxKeywords : Nat) : List String → List String → List String
  | [], acc => acc
  | t :: ts, acc =>
    if t.data.length < 3 ∨ t ∈ STOP_WORDS then extractKeywordsLoop maxKeywords ts acc
    else
      let acc' := if t ∈ acc then acc else acc ++ [t]
      if acc'.length ≥ maxKeywords then acc'
      else extractKeywordsLoop maxKeywords ts acc'

def extractKeywords (text : Option String) (maxKeywords : Nat := 8) : List String :=
  match text with
  | none => []
  | some s =>
    if s.data.isEmpty then []
    else extractKeywordsLoop maxKeywords
      ((tokenizeAux (asciiLower s.data)).map List.asString) []

def keywordAt (keywords : List String) (i : Nat) : String :=
  keywords.getD (i % keywords.length) ""

/-- First loop of `generate_questions_locally`: keyword templates, cycling
through keywords by current list length, stopping at `num_questions`. -/
def fillKeywordTemplates (role : String) (keywords : List String) (num : Int) :
    List (String → String → String) → List String → List String
  | [], acc => acc
  | t :: ts, acc =>
    if (acc.length : Int) ≥ num then acc
    else fillKeywordTemplates role keywords num ts
      (acc ++ [t role (keywordAt keywords acc.length)])

/-- Second loop: role-only templates. -/
def fillGeneralTemplates (role : String) (num : Int) :
    List (String → String) → List String → List String
  | [], acc => acc
  | t :: ts, acc =>
    if (acc.length : Int) ≥ num then acc
    else fillGeneralTemplates role num ts (acc ++ [t role])

/-- Final `while` loop of `generate_questions_locally`, with the number of
remaining iterations (`num - len(acc)`) made explicit as structural fuel:
each pass appends one filler question while `len(questions) < num_questions`. -/
def fillFillerGo (keywords : List String) (num : Int) : Nat → List String → List String
  | 0, acc => acc
  | fuel + 1, acc =>
    if (acc.length : Int) < num then
      fillFillerGo keywords num fuel
        (acc ++ ["What best practices have you developed around "
                  ++ keywordAt keywords acc.length ++ "?"])
    else acc

def fillFiller (keywords : List String) (num : Int) (acc : List String) : List String :=
  fillFillerGo keywords num (num.toNat - acc.length) acc

def defaultKeywords : List String :=
  ["problem solving", "stakeholder communication", "continuous improvement"]

def generateQuestionsLocally (job_description : Option String) (num_questions : Int)
    (job_role : Option String) : List String :=
  let role_phrase := if strOptTruthy job_role then job_role.getD "" else "this role"
  let kws1 := extractKeywords job_description
  let kws2 := if kws1.isEmpty ∧ strOptTruthy job_role then extractKeywords job_role else kws1
  let keywords := if kws2.isEmpty then defaultKeywords else kws2
  let qs := fillKeywordTemplates role_phrase keywords num_questions TEMPLATES_KEYWORD []
  let qs := fillGeneralTemplates role_phrase num_questions TEMPLATES_GENERAL qs
  let qs := fillFiller keywords num_questions qs
  pyTake num_questions qs

/-! ## `extract_questions_from_text` -/

def skipPrefixes : List String :=
  ["**", "why it", "what you", "ideal answer", "good answer", "red flags", "difficulty:"]

def isDigitChar (c : Char) : Bool := '0' ≤ c && c ≤ '9'

/-- `re.sub(r"^\*+\s*", "", s)`. -/
def stripLeadingStars (cs : List Char) : List Char :=
  match cs with
  | '*' :: _ => dropWhileP pySpace (dropWhileP (· == '*') cs)
  | _ => cs

/-- `re.sub(r"^\d+[\).\-]\s*", "", s)`. -/
def stripNumbering (cs : List Char) : List Char :=
  match cs with
  | c :: _ =>
    if isDigitChar c then
      match dropWhileP isDigitChar cs with
      | d :: rest => if d == ')' || d == '.' || d == '-' then dropWhileP pySpace rest else cs
      | [] => cs
    else cs
  | [] => cs

/-- `re.sub(r"^[\-\*]\s*", "", s)`. -/
def stripBullet (cs : List Char) : List Char :=
  match cs with
  | c :: rest => if c == '-' || c == '*' then dropWhileP pySpace rest else cs
  | [] => cs

/-- `re.sub(r"^\*\*.*?\*\*:?\s*", "", s)`: the lazy `.*?` stops at the first
later `**` ( `.` does not cross a newline). -/
def stripBold (cs : List Char) : List Char :=
  match cs with
  | '*' :: '*' :: rest =>
    match findSubIdx ['*', '*'] rest with
    | some i =>
      if (rest.take i).contains '\n' then cs
      else
        let after := rest.drop (i + 2)
        let after := match after with | ':' :: r => r | _ => after
        dropWhileP pySpace after
    | none => cs
  | _ => cs

/-- Per-line processing of the first loop of `extract_questions_from_text`;
`none` models a `continue`. -/
def cleanLine (line : List Char) : Option String :=
  let clean := pyStripL line
  if clean.isEmpty then none
  else if skipPrefixes.any (fun sk => startsWithL sk.data (asciiLower clean)) then none
  else
    let clean := stripLeadingStars clean
    let clean := stripNumbering clean
    let clean := stripBullet clean
    let clean := stripBold clean
    if clean.length < 10 then none
    else
      let clean :=
        if clean.getLast? == some '?' then clean
        else pyRstripChar '.' clean ++ ['?']
      if containsSub ['?'] clean ∧ 5 ≤ (splitWsAux clean []).length then
        some clean.asString
      else none

/-- `re.split(r"\?\s*", content)`.  Fuel is the input length; each step
consumes at least one character, so the fuel-0 case is unreachable. -/
def splitQmWsGo : Nat → List Char → List Char → List (List Char)
  | 0, _, cur => [cur.reverse]
  | _ + 1, [], cur => [cur.reverse]
  | fuel + 1, '?' :: cs, cur => cur.reverse :: splitQmWsGo fuel (dropWhileP pySpace cs) []
  | fuel + 1, c :: cs, cur => splitQmWsGo fuel cs (c :: cur)

def splitQmWs (cs : List Char) (cur : List Char) : List (List Char) :=
  splitQmWsGo cs.length cs cur

/-- Second-phase chunk handling of `extract_questions_from_text`. -/
def chunkStep (lines : List String) (chunk : List Char) : List String :=
  if 10 < chunk.length ∧ 5 ≤ (splitWsAux chunk []).length then
    let question := chunk ++ ['?']
    let question := stripLeadingStars question
    let question := stripNumbering question
    if question.asString ∈ lines then lines else lines ++ [question.asString]
  else lines

def extractQuestionsFromText (content : String) (max_questions : Int) : List String :=
  let lines := (splitLinesAux content.data []).filterMap cleanLine
  let lines :=
    if (lines.length : Int) < max_questions then
      let chunks := ((splitQmWs content.data []).map pyStripL).filter (fun c => ¬c.isEmpty)
      (pyTake max_questions chunks).foldl chunkStep lines
    else lines
  pyTake max_questions lines

/-! ## `GenerateRequest` and `build_questions_payload` -/

structure ChatMsg where
  role : String
  content : String
  deriving DecidableEq, Repr

/-- `GenerateRequest` (pydantic model); `messages=None` and `messages=[]` are
collapsed since only truthiness is observed.  `temperature`/`max_tokens` only
parameterise the gateway call and are absorbed into the gateway outcome. -/
structure GenerateRequest where
  messages : List ChatMsg
  prompt : Option String
  model : String := "gemma3:27b"
  job_role : Option String := none
  job_description : Option String := none
  num_questions : Option Int := none
  deriving DecidableEq, Repr

def formattedMessages (r : GenerateRequest) : List ChatMsg :=
  if ¬r.messages.isEmpty then r.messages
  else match r.prompt with
    | some p => if ¬p.data.isEmpty then [⟨"user", p⟩] else []
    | none => []

def desiredQuestionCount (num_questions : Option Int) : Int :=
  match num_questions with
  | some n => if n ≠ 0 ∧ 0 < n then min n 20 else 5
  | none => 5

def inferJobDescription (prompt : Option String) (messages : List ChatMsg) : Option String :=
  let text_blocks :=
    (match prompt with
     | some p => if ¬p.data.isEmpty then [p] else []
     | none => []) ++ messages.map (·.content)
  let combined := String.intercalate "\n" text_blocks
  if combined.data.isEmpty then none
  else
    let marker : List Char := "job description".data
    match findSubIdx marker (asciiLower combined.data) with
    | some idx =>
      let snippet := combined.data.drop (idx + marker.length)
      let snippet := takeBeforeSub "Provide only".data snippet
      let stripped := pyStripChars [' ', ':', '\n'] snippet
      if stripped.isEmpty then some (pyStripL combined.data).asString
      else some stripped.asString
    | none => some (pyStripL combined.data).asString

/-- Outcome of the Ollama chat call made by `build_questions_payload`:
an HTTP response (status plus the parsed `message.content` for 200,
`response.text` otherwise), or a raised exception. -/
inductive GenGw
  | resp (status : Nat) (content : String)
  | exn (msg : String)
  deriving DecidableEq, Repr

/-- What `build_questions_payload` returns (observability-only fields
`content`, `raw`, `timestamp` omitted). -/
structure GenPayload where
  questions : List String
  source : String
  model : String
  used_fallback : Bool
  fallback_reason : Option String
  deriving DecidableEq, Repr

/-- The `job_description` local of `build_questions_payload`:
`request.job_description or infer_job_description(request.prompt, messages)`. -/
def derivedJobDescription (req : GenerateRequest) : Option String :=
  pyOrStr req.job_description (inferJobDescription req.prompt (formattedMessages req))

def buildQuestionsPayload (req : GenerateRequest) (gw : GenGw) : Except ApiError GenPayload :=
  let messages := formattedMessages req
  let job_description := derivedJobDescription req
  let num_questions := desiredQuestionCount req.num_questions
  let job_role := req.job_role
  if num_questions ≤ 0 then
    .error (.invalidInput "Number of questions must be greater than zero")
  else if ¬strOptTruthy job_description ∧ ¬strOptTruthy job_role
      ∧ messages.isEmpty ∧ ¬strOptTruthy req.prompt then
    .error (.invalidInput "Either messages/prompt or job_description/job_role must be provided")
  else
    -- the `except Exception` handler at the end of the `try` block
    let handler := fun (reason : String) =>
      if job_description = none ∧ job_role = none then
        Except.error (ApiError.invalidInput
          "Job description or job role is required to generate questions")
      else
        Except.ok { questions := generateQuestionsLocally job_description num_questions job_role,
                    source := "fallback", model := req.model, used_fallback := true,
                    fallback_reason := some reason }
    match gw with
    | .resp 200 content =>
      let questions := extractQuestionsFromText content num_questions
      if questions.isEmpty then handler "LLM returned no parseable questions"
      else .ok { questions := questions, source := "ollama", model := req.model,
                 used_fallback := false, fallback_reason := none }
    | .resp status content =>
      let detail := if content.data.isEmpty then "LLM generation failed" else content
      handler ("LLM generation failed (" ++ toString status ++ "): " ++ detail)
    | .exn m => handler m

/-! ## `start_interview` (`/interview/start`) -/

structure InterviewStartRequest where
  candidate_name : Option String := none
  job_role : Option String := none
  job_description : Option String := none
  num_questions : Int := 3
  questions : Option (List String) := none
  deriving DecidableEq, Repr

def mkSessionState (req : InterviewStartRequest) (questions : List String)
    (question_source : String) (used_fallback : Bool) : SysState :=
  { session :=
      { candidate_name := req.candidate_name
        job_role := req.job_role
        job_description := req.job_description
        questions := questions
        current_question := 0
        status := .active
        question_source := question_source
        used_fallback := used_fallback
        responses := [] }
    transcripts := [] }

def startInterview (req : InterviewStartRequest) (gw : GenGw) : Except ApiError SysState :=
  let clientQuestions : Option (List String) :=
    match req.questions with
    | some qs => if ¬qs.isEmpty then some qs else none
    | none => none
  match clientQuestions with
  | some qs =>
    let cleaned := qs.filterMap (fun q =>
      let st := pyStripL q.data
      if ¬q.data.isEmpty ∧ ¬st.isEmpty then some st.asString else none)
    if cleaned.isEmpty then
      .error (.internalError "Provided questions were empty after cleaning")
    else .ok (mkSessionState req cleaned "client" false)
  | none =>
    let question_prompt :=
      "Generate " ++ toString req.num_questions
        ++ " professional interview questions for a "
        ++ (if strOptTruthy req.job_role then req.job_role.getD "" else "software developer")
        ++ " position. Return only the questions, one per line, without numbering."
    let llm_req : GenerateRequest :=
      { messages := [⟨"user", question_prompt⟩]
        prompt := some question_prompt
        job_role := req.job_role
        job_description := req.job_description
        num_questions := some req.num_questions }
    match buildQuestionsPayload llm_req gw with
    | .error e => .error e
    | .ok payload =>
      if payload.questions.isEmpty then
        .error (.internalError "No interview questions were generated")
      else .ok (mkSessionState req payload.questions payload.source payload.used_fallback)

/-! ## Score parsing (`src/hr_agent/api/scoring.py`) -/

def digitVal (c : Char) : Nat := c.toNat - '0'.toNat

def natOfDigits (ds : List Char) : Nat := ds.foldl (fun n c => n * 10 + digitVal c) 0

/-- Value of a decimal literal with integer digits `ds` and fraction digits `fs`. -/
def ratOfParts (ds fs : List Char) : ℚ :=
  (natOfDigits ds : ℚ) + (natOfDigits fs : ℚ) / ((10 : ℚ) ^ fs.length)

/-- Try the regex `(\d+\.?\d*)/10` anchored at the head of `cs`.  Backtracking
to a shorter fraction run cannot succeed (a shorter prefix is followed by a
digit, never `/`), so only the maximal runs are checked. -/
def matchSlash10At (cs : List Char) : Option ℚ :=
  let ds := cs.takeWhile isDigitChar
  if ds.isEmpty then none
  else
    match cs.drop ds.length with
    | '.' :: rest2 =>
      let fs := rest2.takeWhile isDigitChar
      if startsWithL ['/', '1', '0'] (rest2.drop fs.length) then some (ratOfParts ds fs)
      else none
    | rest => if startsWithL ['/', '1', '0'] rest then some (ratOfParts ds []) else none

/-- `re.search(r'(\d+\.?\d*)/10', line)`: leftmost match. -/
def searchSlash10 : List Char → Option ℚ
  | [] => none
  | c :: cs =>
    match matchSlash10At (c :: cs) with
    | some q => some q
    | none => searchSlash10 cs

/-- `re.search(r'^.*?(\d+\.?\d*)', line)`: lazy prefix, so the group is the
maximal number starting at the first digit. -/
def firstNumber : List Char → Option ℚ
  | [] => none
  | c :: cs =>
    if isDigitChar c then
      let ds := (c :: cs).takeWhile isDigitChar
      match (c :: cs).drop ds.length with
      | '.' :: rest2 => some (ratOfParts ds (rest2.takeWhile isDigitChar))
      | _ => some (ratOfParts ds [])
    else firstNumber cs

/-- `extract_score`: `N/10` pattern first, else the first standalone number
when it lies in `[0, 10]`, else `0.0`. -/
def extractScore (line : String) : ℚ :=
  match searchSlash10 line.data with
  | some q => q
  | none =>
    match firstNumber line.data with
    | some q => if 0 ≤ q ∧ q ≤ 10 then q else 0
    | none => 0

structure EvalScores where
  clarity_structure : ℚ
  grammar_vocabulary : ℚ
  conciseness_relevance : ℚ
  professionalism : ℚ
  confidence_delivery : ℚ
  engagement_adaptability : ℚ
  linguistic_avg : ℚ
  behavioral_avg : ℚ
  final_score : ℚ
  deriving DecidableEq, Repr

def initScores : EvalScores := ⟨0, 0, 0, 0, 0, 0, 0, 0, 0⟩

def lineContains (line marker : String) : Bool := containsSub marker.data line.data

/-- One iteration of the `for line in lines` loop of `parse_evaluation_scores`
(the line is `strip`ped first, then matched against the marker chain). -/
def scoreLineStep (s : EvalScores) (rawLine : String) : EvalScores :=
  let line := pyStripL rawLine.data
  if containsSub "Clarity & Structure:".data line then
    { s with clarity_structure := extractScore line.asString }
  else if containsSub "Grammar & Vocabulary:".data line then
    { s with grammar_vocabulary := extractScore line.asString }
  else if containsSub "Conciseness".data line then
    { s with conciseness_relevance := extractScore line.asString }
  else if containsSub "Professionalism:".data line then
    { s with professionalism := extractScore line.asString }
  else if containsSub "Confidence:".data line then
    { s with confidence_delivery := extractScore line.asString }
  else if containsSub "Engagement:".data line then
    { s with engagement_adaptability := extractScore line.asString }
  else if containsSub "Linguistic Avg:".data line then
    { s with linguistic_avg := extractScore line.asString }
  else if containsSub "Behavioral Avg:".data line then
    { s with behavioral_avg := extractScore line.asString }
  else if containsSub "Final Score:".data line then
    { s with final_score := extractScore line.asString }
  else s

def parseEvaluationScores (evaluation_text : String) : EvalScores :=
  let lines := (splitOnChar '\n' evaluation_text.data).map List.asString
  let s := lines.foldl scoreLineStep initScores
  let s :=
    if s.linguistic_avg = 0 then
      { s with linguistic_avg :=
          (s.clarity_structure + s.grammar_vocabulary + s.conciseness_relevance) / 3 }
    else s
  let s :=
    if s.behavioral_avg = 0 then
      { s with behavioral_avg :=
          (s.professionalism + s.confidence_delivery + s.engagement_adaptability) / 3 }
    else s
  if s.final_score = 0 then
    { s with final_score := s.linguistic_avg * (1 / 2) + s.behavioral_avg * (1 / 2) }
  else s

/-! ## Standalone scoring endpoint (`/score`, `src/hr_agent/api/scoring.py`) -/

/-- Outcome of the `requests.post` in `call_ollama_gemma`: an HTTP response
(status code plus the parsed `response` field), or one of the exception
classes distinguished by the handler. -/
inductive ScoreGw
  | resp (status : Nat) (responseField : String)
  | timeoutExn
  | requestExn (msg : String)
  | otherExn (msg : String)
  deriving DecidableEq, Repr

structure HttpError where
  status : Nat
  detail : String
  deriving DecidableEq, Repr

/-- `call_ollama_gemma`: `raise_for_status` turns a 4xx/5xx response into an
`HTTPError` (a `RequestException`), hence 503; timeout becomes 504; other
exceptions 500.  Gateway failures are re-raised to the caller, not handled. -/
def callOllamaGemma (gw : ScoreGw) : Except HttpError String :=
  match gw with
  | .resp status body =>
    if 400 ≤ status then .error ⟨503, "Scoring service unavailable"⟩
    else .ok (pyStripL body.data).asString
  | .timeoutExn => .error ⟨504, "Scoring service timed out"⟩
  | .requestExn _ => .error ⟨503, "Scoring service unavailable"⟩
  | .otherExn _ => .error ⟨500, "Internal scoring error"⟩

structure ScoringRequest where
  transcript : String
  question : String
  deriving DecidableEq, Repr

structure ScoringResponse where
  linguistic_score : ℚ
  behavioral_score : ℚ
  final_score : ℚ
  detailed_scores : EvalScores
  summary : String
  deriving DecidableEq, Repr

/-- Summary extraction of `score_interview_response`. -/
def scoreSummary (evaluation_text : String) : String :=
  let summary_lines :=
    (((splitOnChar '\n' evaluation_text.data).map pyStripL).filter
      (fun l => ¬l.isEmpty)).map List.asString
  match summary_lines.reverse.find? (fun l => lineContains l "Summary:") with
  | some l =>
    let s := (pyStripL (replaceAll "Summary:".data [] l.data)).asString
    if ¬s.data.isEmpty then s
    else fallbackSummary summary_lines
  | none => fallbackSummary summary_lines
where
  fallbackSummary (summary_lines : List String) : String :=
    match summary_lines.reverse.find? (fun l =>
        50 < l.data.length
        ∧ ¬(["score", "avg", "/"].any (fun k => containsSub k.data (asciiLower l.data)))) with
    | some l => l
    | none => "Evaluation completed. Review detailed scores above."

def scoreInterviewResponse (req : ScoringRequest) (gw : ScoreGw) :
    Except HttpError ScoringResponse :=
  if (pyStripL req.transcript.data).isEmpty then
    .error ⟨400, "Transcript cannot be empty"⟩
  else if req.transcript.data.length < 10 then
    .error ⟨400, "Transcript too short for meaningful evaluation"⟩
  else
    match callOllamaGemma gw with
    | .error e => .error e
    | .ok evaluation_text =>
      let detailed := parseEvaluationScores evaluation_text
      .ok { linguistic_score := detailed.linguistic_avg
            behavioral_score := detailed.behavioral_avg
            final_score := detailed.final_score
            detailed_scores := detailed
            summary := scoreSummary evaluation_text }

/-! ## Per-session evaluation inside `get_interview_results`
(`src/hr_agent/server/main.py`) -/

/-- Outcome of the per-response `requests.post` to `/api/generate`. -/
inductive ResGw
  | resp (status : Nat) (responseText : String)
  | exn (msg : String)
  deriving DecidableEq, Repr

structure RespEval where
  score : ℚ
  feedback : String
  strengths : String
  areas_for_improvement : String
  deriving DecidableEq, Repr

/-- Subset of Python `float(s)` for plain decimal literals (optional sign,
digits, optional point); exponent/`inf`/`nan` forms never arise from the
score lines being parsed and are mapped to `none`. -/
def parseUnsignedFloat (cs : List Char) : Option ℚ :=
  let ds := cs.takeWhile isDigitChar
  match cs.drop ds.length with
  | '.' :: rest2 =>
    let fs := rest2.takeWhile isDigitChar
    if (rest2.drop fs.length).isEmpty ∧ (¬ds.isEmpty ∨ ¬fs.isEmpty) then
      some (ratOfParts ds fs)
    else none
  | [] => if ¬ds.isEmpty then some (ratOfParts ds []) else none
  | _ => none

def pyFloat? (s : String) : Option ℚ :=
  match pyStripL s.data with
  | '+' :: rest => parseUnsignedFloat rest
  | '-' :: rest => (parseUnsignedFloat rest).map Neg.neg
  | cs => parseUnsignedFloat cs

/-- One line of the AI-evaluation parsing loop in `get_interview_results`
(`Score:` with clamp and `except: score = 5`, then the three text fields). -/
def evalLineStep (st : RespEval) (line : String) : RespEval :=
  if startsWithL "Score:".data line.data then
    match pyFloat? ((pyStripL (replaceAll "Score:".data [] line.data)).asString) with
    | some v => { st with score := max 1 (min 10 v) }
    | none => { st with score := 5 }
  else if startsWithL "Feedback:".data line.data then
    { st with feedback := (pyStripL (replaceAll "Feedback:".data [] line.data)).asString }
  else if startsWithL "Strengths:".data line.data then
    { st with strengths := (pyStripL (replaceAll "Strengths:".data [] line.data)).asString }
  else if startsWithL "Areas for improvement:".data line.data then
    { st with areas_for_improvement :=
        (pyStripL (replaceAll "Areas for improvement:".data [] line.data)).asString }
  else st

def defaultRespEval : RespEval :=
  { score := 5
    feedback := "Standard response evaluated."
    strengths := "Response provided."
    areas_for_improvement := "Could provide more specific examples." }

/-- The per-response evaluation of `get_interview_results`: AI parse on a 200
response, the word-count heuristic on any other status, and the banded
word-count fallback when the gateway call raises. -/
def evaluateResponse (gw : ResGw) (transcript : String) : RespEval :=
  match gw with
  | .resp status evaluation_text =>
    if status == 200 then
      let lines := (splitOnChar '\n' (pyStripL evaluation_text.data)).map List.asString
      lines.foldl evalLineStep defaultRespEval
    else
      { score := min 10 (max 1 ((wordCount transcript : ℚ) / 10))
        feedback := "Response evaluated based on length (" ++ toString (wordCount transcript)
          ++ " words). AI evaluation unavailable."
        strengths := "Response provided within reasonable length."
        areas_for_improvement := "Ensure AI evaluation system is available for detailed feedback." }
  | .exn _ =>
    let word_count := wordCount transcript
    let (score, feedback) : ℚ × String :=
      if word_count < 5 then (2, "Very brief response - needs more detail and examples.")
      else if word_count < 20 then
        (4, "Brief response - could benefit from more specific examples and details.")
      else if word_count < 50 then (6, "Adequate response length - good baseline answer.")
      else if word_count < 100 then (8, "Comprehensive response with good detail.")
      else (9, "Very detailed and thorough response.")
    { score := score
      feedback := feedback
      strengths := "Response provided with reasonable effort."
      areas_for_improvement := "Consider providing more specific examples and technical details." }

/-! ## `get_interview_results` (`/interview/{session_id}/results`) -/

structure MergedResp where
  question_index : Int
  transcript_id : Nat
  transcript : String
  deriving DecidableEq, Repr

/-- The `{**response, **transcript}` merge of
`get_session_responses_with_transcripts` — when the transcript is found its
`question_index` field overwrites the response entry's; a missing transcript
gives the placeholder record. -/
def respWithTranscript (ts : List Transcript) (r : RespEntry) : MergedResp :=
  match ts.get? r.transcript_id with
  | some tr =>
    { question_index := tr.question_index
      transcript_id := r.transcript_id
      transcript := tr.text }
  | none =>
    { question_index := r.question_index
      transcript_id := r.transcript_id
      transcript := "[Transcript not found]" }

/-- Stable insertion by `question_index`; `sortByQi` is extensionally the
stable `list.sort(key=lambda x: x.get('question_index', 0))` of the source. -/
def insertByQi (x : MergedResp) : List MergedResp → List MergedResp
  | [] => [x]
  | y :: ys =>
    if y.question_index < x.question_index then y :: insertByQi x ys
    else x :: y :: ys

def sortByQi : List MergedResp → List MergedResp
  | [] => []
  | x :: xs => insertByQi x (sortByQi xs)

/-- `DataManager.get_session_responses_with_transcripts`.  Every stored
response entry carries a non-empty transcript id string in the source, so the
`if transcript_id:` guard is always taken. -/
def getSessionResponsesWithTranscripts (σ : SysState) : List MergedResp :=
  sortByQi (σ.session.responses.map (respWithTranscript σ.transcripts))

structure ScoredResponse where
  question_index : Int
  transcript_id : Nat
  transcript : String
  score : ℚ
  feedback : String
  strengths : String
  areas_for_improvement : String
  question : String
  deriving DecidableEq, Repr

/-- Round-half-to-even to an integer (Python `round` tie behaviour). -/
def roundHalfEven (q : ℚ) : ℤ :=
  let f := ⌊q⌋
  let r := q - f
  if r < 1 / 2 then f
  else if 1 / 2 < r then f + 1
  else if f % 2 = 0 then f else f + 1

/-- Python `round(x, 1)` on the exact rational model. -/
def pyRound1 (q : ℚ) : ℚ := (roundHalfEven (q * 10) : ℚ) / 10

/-- One iteration of the scoring loop in `get_interview_results`; the raw
(unrounded) score is returned alongside for the `total_score` accumulator.
An out-of-range negative `questions[question_index]` lookup is the
`IndexError` the endpoint would surface as a 500. -/
def scoreOne (questions : List String) (gw : ResGw) (r : MergedResp) :
    Except ApiError (ScoredResponse × ℚ) :=
  let question? : Except ApiError String :=
    if r.question_index < (questions.length : Int) then
      match pyListGet questions r.question_index with
      | some q => .ok q
      | none => .error (.internalError "IndexError")
    else .ok "Unknown question"
  match question? with
  | .error e => .error e
  | .ok question =>
    let transcript := r.transcript
    let transcript :=
      if (pyStripL transcript.data).isEmpty then "[No response provided]"
      else if (pyStripL transcript.data).asString = "SKIPPED" then skippedSentinel
      else transcript
    let ev := evaluateResponse gw transcript
    .ok ({ question_index := r.question_index
           transcript_id := r.transcript_id
           transcript := r.transcript
           score := pyRound1 ev.score
           feedback := ev.feedback
           strengths := ev.strengths
           areas_for_improvement := ev.areas_for_improvement
           question := question }, ev.score)

def scoreAll (questions : List String) (gw : ResGw) :
    List MergedResp → Except ApiError (List (ScoredResponse × ℚ))
  | [] => .ok []
  | r :: rs =>
    match scoreOne questions gw r with
    | .error e => .error e
    | .ok x =>
      match scoreAll questions gw rs with
      | .error e => .error e
      | .ok xs => .ok (x :: xs)

structure ResultsPayload where
  candidate_name : Option String
  job_role : Option String
  total_questions : Nat
  completed_responses : Nat
  average_score : ℚ
  responses : List ScoredResponse
  deriving DecidableEq, Repr

/-- `/interview/{session_id}/results`.  The handler performs no store writes,
so the state component is returned unchanged. -/
def getResultsOp (σ : SysState) (gw : ResGw) : SysState × Except ApiError ResultsPayload :=
  let s := σ.session
  if s.status ≠ SessionStatus.completed then
    (σ, .error (.failedPrecondition "Interview not yet completed"))
  else
    match scoreAll s.questions gw (getSessionResponsesWithTranscripts σ) with
    | .error e => (σ, .error e)
    | .ok scored =>
      let total_score := (scored.map Prod.snd).sum
      let n := scored.length
      let average := if n ≠ 0 then total_score / (n : ℚ) else 0
      (σ, .ok { candidate_name := s.candidate_name
                job_role := s.job_role
                total_questions := s.questions.length
                completed_responses := n
                average_score := pyRound1 average
                responses := scored.map Prod.fst })

/-! # Concrete runs used by the theorems -/

def demoStartReq : InterviewStartRequest :=
  { questions := some
      ["Why do you want to join our engineering team?",
       "Describe a project you are proud of and your role in it?",
       "How do you handle tight deadlines under pressure?"] }

def demoState : SysState :=
  (startInterview demoStartReq (GenGw.exn "gateway down")).toOption.getD
    (mkSessionState demoStartReq [] "client" false)

/-- `SubmitResponse(question_index=2)` on the fresh 3-question session. -/
def demoAfter2 : SysState := (submitOp demoState 2 none).1

/-- ... followed by the out-of-order `SubmitResponse(question_index=0)`. -/
def demoAfter20 : SysState := (submitOp demoAfter2 0 none).1

instance {ε α : Type _} [DecidableEq ε] [DecidableEq α] : DecidableEq (Except ε α) := fun a b =>
  match a, b with
  | .ok x, .ok y => if h : x = y then isTrue (by rw [h]) else isFalse (by simp [h])
  | .error x, .error y => if h : x = y then isTrue (by rw [h]) else isFalse (by simp [h])
  | .ok _, .error _ => isFalse (by simp)
  | .error _, .ok _ => isFalse (by simp)

/-! # Claims -/

/-- C1: the claim says a successful `SubmitResponse` leaves
`current_question = max(current_question, question_index + 1)`.  The source
instead assigns `current_question = question_index + 1` unconditionally
(`src/hr_agent/server/main.py`), so on a 3-question session the sequence
`submit 2; submit 0` lowers `current_question` from `3` to `1` instead of
keeping `max(3, 1) = 3`. -/
theorem c1_current_question_overwritten :
    startInterview demoStartReq (GenGw.exn "gateway down") = Except.ok demoState
    ∧ (submitOp demoState 2 none).2 =
        .ok ⟨skippedSentinel, 0, SessionStatus.completed, 3⟩
    ∧ demoAfter2.session.current_question = 3
    ∧ (submitOp demoAfter2 0 none).2 =
        .ok ⟨skippedSentinel, 1, SessionStatus.completed, 1⟩
    ∧ demoAfter20.session.current_question = 1
    ∧ demoAfter20.session.current_question
        ≠ max demoAfter2.session.current_question (0 + 1) := by
  decide

/-- C2 counterexample: a reachable state (start 3 questions, submit index 2,
then submit index 0) in which the session is `completed` while
`current_question < len(questions)`, refuting the claimed invariant
`status == completed ↔ current_question ≥ len(questions)`. -/
theorem c2_completed_iff_counterexample :
    demoAfter20.session.status = SessionStatus.completed
    ∧ demoAfter20.session.current_question
        < (demoAfter20.session.questions.length : Int)
    ∧ ¬(demoAfter20.session.status = SessionStatus.completed ↔
        (demoAfter20.session.questions.length : Int)
          ≤ demoAfter20.session.current_question) := by
  decide

/-- C2 (amended): sessions are created `active`; a successful submission
leaves the session `completed` iff it was already completed or this
submission's `question_index + 1` reaches `len(questions)` — so the
transition happens exactly on reaching the question count, at most once, and
is never reverted.  (The original iff with `current_question ≥ len(questions)`
fails: a later out-of-order submission lowers `current_question` while the
status stays `completed`, see the counterexample.) -/
theorem c2_completion_transition :
    (∀ (req : InterviewStartRequest) (gw : GenGw) (σ0 : SysState),
        startInterview req gw = .ok σ0 → σ0.session.status = SessionStatus.active)
    ∧ (∀ (σ σ2 : SysState) (idx : Int) (tid? : Option Nat) (r : SubmitResult),
        submitOp σ idx tid? = (σ2, .ok r) →
        (σ2.session.status = SessionStatus.completed ↔
          (σ.session.status = SessionStatus.completed
            ∨ (σ.session.questions.length : Int) ≤ idx + 1))) := by
  constructor
  · intro req gw σ0 h
    unfold startInterview at h
    dsimp only at h
    split at h
    · split at h
      · exact absurd h (by simp)
      · injection h with h2
        exact h2 ▸ rfl
    · split at h
      · exact absurd h (by simp)
      · split at h
        · exact absurd h (by simp)
        · injection h with h2
          exact h2 ▸ rfl
  · intro σ σ2 idx tid? r h
    unfold submitOp at h
    cases tid? with
    | none =>
      simp only at h
      split at h
      · exact absurd (congrArg Prod.snd h) (by simp)
      · have hσ2 := (congrArg Prod.fst h).symm
        simp only at hσ2
        subst hσ2
        simp only [addSessionResponse]
        by_cases hc : (σ.session.questions.length : Int) ≤ idx + 1
        · simp [ge_iff_le, hc]
        · simp [ge_iff_le, hc]
    | some t =>
      simp only at h
      split at h
      · exact absurd (congrArg Prod.snd h) (by simp)
      · have hσ2 := (congrArg Prod.fst h).symm
        simp only at hσ2
        subst hσ2
        simp only [addSessionResponse]
        by_cases hc : (σ.session.questions.length : Int) ≤ idx + 1
        · simp [ge_iff_le, hc]
        · simp [ge_iff_le, hc]

/-- C2 amended, instantiated: the demo session starts `active`, and the
submission of index 2 completes it (3 ≤ 2 + 1). -/
theorem c2_completion_transition_witness :
    demoState.session.status = SessionStatus.active
    ∧ (demoAfter2.session.status = SessionStatus.completed ↔
        (demoState.session.status = SessionStatus.completed
          ∨ (demoState.session.questions.length : Int) ≤ 2 + 1)) :=
  ⟨c2_completion_transition.1 demoStartReq (GenGw.exn "gateway down") demoState (by decide),
   c2_completion_transition.2 demoState demoAfter2 2 none
     ⟨skippedSentinel, 0, SessionStatus.completed, 3⟩ (by decide)⟩

/-! ## C4: overwrite-on-retry of response entries -/

def respMatches (qi : Int) (r : RespEntry) : Bool := r.question_index == qi

theorem countP_upsert (rs : List RespEntry) (qi : Int) (t : Nat) :
    (upsertResponse qi ⟨qi, t⟩ rs).countP (respMatches qi)
      = max (rs.countP (respMatches qi)) 1 := by
  induction rs with
  | nil => simp [upsertResponse, List.countP, List.countP.go, respMatches]
  | cons r rest ih =>
    by_cases hr : respMatches qi r = true
    · have hqi : r.question_index == qi := hr
      simp only [upsertResponse, hqi, if_true]
      rw [List.countP_cons_of_pos _ _ (by simp [respMatches]),
        List.countP_cons_of_pos _ _ hr]
      omega
    · have hqi : (r.question_index == qi) = false := by
        simpa [respMatches] using hr
      simp only [upsertResponse, hqi, Bool.false_eq_true, if_false]
      rw [List.countP_cons_of_neg _ _ (by simp [hr]),
        List.countP_cons_of_neg _ _ (by simp [hr]), ih]

theorem length_upsert_of_matching (rs : List RespEntry) (qi : Int) (e : RespEntry)
    (h : 1 ≤ rs.countP (respMatches qi)) :
    (upsertResponse qi e rs).length = rs.length := by
  induction rs with
  | nil => simp [List.countP, List.countP.go] at h
  | cons r rest ih =>
    by_cases hr : respMatches qi r = true
    · have hqi : r.question_index == qi := hr
      simp [upsertResponse, hqi]
    · have hqi : (r.question_index == qi) = false := by
        simpa [respMatches] using hr
      rw [List.countP_cons_of_neg _ _ (by simp [hr])] at h
      simp [upsertResponse, hqi, ih h]

theorem filter_upsert (rs : List RespEntry) (qi : Int) (t : Nat)
    (h : rs.countP (respMatches qi) ≤ 1) :
    (upsertResponse qi ⟨qi, t⟩ rs).filter (respMatches qi) = [⟨qi, t⟩] := by
  induction rs with
  | nil => simp [upsertResponse, respMatches]
  | cons r rest ih =>
    by_cases hr : respMatches qi r = true
    · have hqi : r.question_index == qi := hr
      rw [List.countP_cons_of_pos _ _ hr] at h
      have hrest : rest.countP (respMatches qi) = 0 := by omega
      have hnil : rest.filter (respMatches qi) = [] := by
        rw [List.filter_eq_nil_iff]
        intro a ha hpa
        have := List.countP_eq_zero.mp hrest a ha
        exact this hpa
      simp [upsertResponse, hqi, List.filter_cons, respMatches, hnil]
    · have hqi : (r.question_index == qi) = false := by
        simpa [respMatches] using hr
      rw [List.countP_cons_of_neg _ _ (by simp [hr])] at h
      simp [upsertResponse, hqi, List.filter_cons, hr, ih h]

/-- C4: `DataManager.add_session_response` upserts — submitting the same
`question_index` twice leaves exactly one response entry for that index,
holding the second transcript reference, and the response-list length after
the retry equals the length after the first submission.  The hypothesis
(at most one pre-existing entry for the index) is the key-uniqueness the
store maintains, since entries are only ever created by this upsert. -/
theorem c4_submit_overwrites (s : Session) (qi : Int) (t1 t2 : Nat)
    (h : s.responses.countP (respMatches qi) ≤ 1) :
    (addSessionResponse (addSessionResponse s qi t1) qi t2).responses.length
        = (addSessionResponse s qi t1).responses.length
    ∧ (addSessionResponse (addSessionResponse s qi t1) qi t2).responses.filter
        (respMatches qi) = [⟨qi, t2⟩] := by
  have h1 := countP_upsert s.responses qi t1
  constructor
  · simp only [addSessionResponse]
    apply length_upsert_of_matching
    omega
  · simp only [addSessionResponse]
    apply filter_upsert
    omega

/-- C4 instantiated on the demo session: resubmitting index 1 with a new
transcript id keeps one entry, referencing the new transcript. -/
theorem c4_submit_overwrites_witness :
    (addSessionResponse (addSessionResponse demoState.session 1 4) 1 5).responses.length
        = (addSessionResponse demoState.session 1 4).responses.length
    ∧ (addSessionResponse (addSessionResponse demoState.session 1 4) 1 5).responses.filter
        (respMatches 1) = [⟨1, 5⟩] :=
  c4_submit_overwrites demoState.session 1 4 5 (by decide)

/-! ## C9: determinism of fallback generation -/

/-- C9: `generate_questions_locally` is a pure function of
`(job_description, num_questions, job_role)` — it reads no clock, randomness
or external state — so two runs on equal inputs produce identical question
lists. -/
theorem c9_fallback_generation_deterministic (jd1 jd2 jr1 jr2 : Option String)
    (n1 n2 : Int) (h1 : jd1 = jd2) (h2 : n1 = n2) (h3 : jr1 = jr2) :
    generateQuestionsLocally jd1 n1 jr1 = generateQuestionsLocally jd2 n2 jr2 := by
  subst h1; subst h2; subst h3; rfl

theorem c9_fallback_generation_deterministic_witness :
    generateQuestionsLocally (some "payments platform reliability") 5
        (some "Backend Engineer")
      = generateQuestionsLocally (some "payments platform reliability") 5
        (some "Backend Engineer") :=
  c9_fallback_generation_deterministic _ _ _ _ _ _ rfl rfl rfl

/-! ## C10: the zero-question guard is unreachable -/

/-- C10: `desired_question_count` maps every request to a count in `[1, 20]`
(missing/non-positive `num_questions` become the default 5, positive values
are clamped to 20), so the `num_questions <= 0` branch of
`build_questions_payload` ("Number of questions must be greater than zero")
can never be the produced error. -/
theorem c10_zero_question_guard_unreachable (req : GenerateRequest) (gw : GenGw) :
    1 ≤ desiredQuestionCount req.num_questions
    ∧ desiredQuestionCount req.num_questions ≤ 20
    ∧ buildQuestionsPayload req gw
        ≠ .error (.invalidInput "Number of questions must be greater than zero") := by
  have hball : ∀ nq : Option Int,
      1 ≤ desiredQuestionCount nq ∧ desiredQuestionCount nq ≤ 20 := by
    intro nq
    cases nq with
    | none => simp [desiredQuestionCount]
    | some n =>
      simp only [desiredQuestionCount]
      by_cases hc : n ≠ 0 ∧ 0 < n
      · rw [if_pos hc]
        exact ⟨le_min (by omega) (by omega), min_le_right _ _⟩
      · rw [if_neg hc]
        omega
  have hb := hball req.num_questions
  refine ⟨hb.1, hb.2, ?_⟩
  intro hcontra
  unfold buildQuestionsPayload at hcontra
  dsimp only at hcontra
  split at hcontra
  · omega
  · split at hcontra
    · exact absurd hcontra (by decide)
    · split at hcontra
      · rename_i content _
        split at hcontra
        · split at hcontra
          · exact absurd hcontra (by decide)
          · exact absurd hcontra (by simp)
        · exact absurd hcontra (by simp)
      · split at hcontra
        · exact absurd hcontra (by decide)
        · exact absurd hcontra (by simp)
      · split at hcontra
        · exact absurd hcontra (by decide)
        · exact absurd hcontra (by simp)

/-! ## C6: word-count fallback bands of the per-session scorer -/

/-- C6: when the per-response gateway call raises, `get_interview_results`
scores the transcript purely from its word count with the bands
`<5 → 2`, `<20 → 4`, `<50 → 6`, `<100 → 8`, `≥100 → 9`. -/
theorem c6_fallback_score_bands (m t : String) :
    (wordCount t < 5 → (evaluateResponse (ResGw.exn m) t).score = 2)
    ∧ (5 ≤ wordCount t → wordCount t < 20 → (evaluateResponse (ResGw.exn m) t).score = 4)
    ∧ (20 ≤ wordCount t → wordCount t < 50 → (evaluateResponse (ResGw.exn m) t).score = 6)
    ∧ (50 ≤ wordCount t → wordCount t < 100 → (evaluateResponse (ResGw.exn m) t).score = 8)
    ∧ (100 ≤ wordCount t → (evaluateResponse (ResGw.exn m) t).score = 9) := by
  refine ⟨?_, ?_, ?_, ?_, ?_⟩ <;>
    (intros; simp only [evaluateResponse]; split_ifs <;> first | rfl | omega)

/-- `n` whitespace-separated words. -/
def mkWords (n : Nat) : String := String.intercalate " " (List.replicate n "word")

set_option maxRecDepth 8192 in
/-- C6 instantiated: transcripts of 3, 15, 40, 80 and 150 words score
2, 4, 6, 8 and 9 respectively. -/
theorem c6_fallback_score_bands_witness :
    (evaluateResponse (ResGw.exn "connection error") (mkWords 3)).score = 2
    ∧ (evaluateResponse (ResGw.exn "connection error") (mkWords 15)).score = 4
    ∧ (evaluateResponse (ResGw.exn "connection error") (mkWords 40)).score = 6
    ∧ (evaluateResponse (ResGw.exn "connection error") (mkWords 80)).score = 8
    ∧ (evaluateResponse (ResGw.exn "connection error") (mkWords 150)).score = 9 :=
  ⟨(c6_fallback_score_bands "connection error" (mkWords 3)).1 (by decide),
   (c6_fallback_score_bands "connection error" (mkWords 15)).2.1 (by decide) (by decide),
   (c6_fallback_score_bands "connection error" (mkWords 40)).2.2.1 (by decide) (by decide),
   (c6_fallback_score_bands "connection error" (mkWords 80)).2.2.2.1 (by decide) (by decide),
   (c6_fallback_score_bands "connection error" (mkWords 150)).2.2.2.2 (by decide)⟩

/-! ## C5: shape of the question-generation result -/

def c5FallbackReq : GenerateRequest :=
  { messages := [], prompt := none,
    job_role := some "Site Reliability Engineer", num_questions := some 3 }

def c5LlmReq : GenerateRequest :=
  { messages := [], prompt := none,
    job_role := some "Engineer", num_questions := some 5 }

def c5FallbackQuestions : List String :=
  ["Can you walk me through a recent project where you applied site?",
   "How do you stay current with best practices around reliability?",
   "Describe a complex challenge involving engineer and how you solved it."]

/-- C5 counterexample.  (i) On the fallback path with `num_questions = 3` the
third generated question comes from the keyword template
"Describe a complex challenge involving {keyword} and how you solved it."
and ends with `'.'`, not `'?'`.  (ii) On the LLM path a 200 response whose
content parses to a single question yields 1 question, not
`min(num_questions, 20) = 5`. -/
theorem c5_question_shape_counterexample :
    buildQuestionsPayload c5FallbackReq (GenGw.exn "connection refused")
      = .ok { questions := c5FallbackQuestions, source := "fallback",
              model := "gemma3:27b", used_fallback := true,
              fallback_reason := some "connection refused" }
    ∧ (c5FallbackQuestions.getD 2 "").data.getLast? = some '.'
    ∧ buildQuestionsPayload c5LlmReq
        (GenGw.resp 200 "Can you describe your experience with Python programming?")
      = .ok { questions := ["Can you describe your experience with Python programming?"],
              source := "ollama", model := "gemma3:27b", used_fallback := false,
              fallback_reason := none }
    ∧ desiredQuestionCount c5LlmReq.num_questions = 5 := by
  decide

theorem fillFillerGo_ge (keywords : List String) (num : Int) :
    ∀ (fuel : Nat) (acc : List String), num.toNat ≤ fuel + acc.length →
      num ≤ ((fillFillerGo keywords num fuel acc).length : Int) := by
  intro fuel
  induction fuel with
  | zero =>
    intro acc h
    simp only [fillFillerGo]
    omega
  | succ fuel ih =>
    intro acc h
    simp only [fillFillerGo]
    split
    · refine ih _ ?_
      simp only [List.length_append, List.length_cons, List.length_nil]
      omega
    · omega

theorem fillFiller_ge (keywords : List String) (num : Int) (acc : List String) :
    num ≤ ((fillFiller keywords num acc).length : Int) := by
  exact fillFillerGo_ge keywords num _ acc (by omega)

theorem getLast?_str_append (a b : String) (hb : b.data ≠ []) :
    (a ++ b).data.getLast? = b.data.getLast? :=
  List.getLast?_append_of_ne_nil a.data hb

/-- The last character of the string is a question mark or a period. -/
def endsQorDot (s : String) : Prop :=
  s.data.getLast? = some '?' ∨ s.data.getLast? = some '.' 

/-- Last character of each applied keyword template. -/
theorem templatesKeyword_last (t : String → String → String)
    (ht : t ∈ TEMPLATES_KEYWORD) (role kw : String) : endsQorDot (t role kw) := by
  unfold endsQorDot
  simp only [TEMPLATES_KEYWORD, List.mem_cons, List.not_mem_nil, or_false] at ht
  rcases ht with rfl | rfl | rfl | rfl | rfl | rfl | rfl <;>
    first
      | exact Or.inl (by rw [getLast?_str_append _ "?" (by decide)]; rfl)
      | exact Or.inr (by
          rw [getLast?_str_append _ " and how you solved it." (by decide)]; rfl)
      | exact Or.inr (by rw [getLast?_str_append _ "." (by decide)]; rfl)

/-- Last character of each applied general template. -/
theorem templatesGeneral_last (t : String → String)
    (ht : t ∈ TEMPLATES_GENERAL) (role : String) : endsQorDot (t role) := by
  unfold endsQorDot
  simp only [TEMPLATES_GENERAL, List.mem_cons, List.not_mem_nil, or_false] at ht
  rcases ht with rfl | rfl | rfl | rfl | rfl
  · exact Or.inl (by rw [getLast?_str_append _ "?" (by decide)]; rfl)
  · exact Or.inl rfl
  · exact Or.inr rfl
  · exact Or.inr (by rw [getLast?_str_append _ " role." (by decide)]; rfl)
  · exact Or.inl rfl

theorem fillKeywordTemplates_forall {P : String → Prop} (role : String)
    (keywords : List String) (num : Int)
    (ts : List (String → String → String)) (acc : List String)
    (hacc : ∀ q ∈ acc, P q)
    (hts : ∀ t ∈ ts, ∀ r k, P (t r k)) :
    ∀ q ∈ fillKeywordTemplates role keywords num ts acc, P q := by
  induction ts generalizing acc with
  | nil => simpa [fillKeywordTemplates] using hacc
  | cons t ts ih =>
    intro q hq
    simp only [fillKeywordTemplates] at hq
    split at hq
    · exact hacc q hq
    · refine ih _ ?_ (fun t' ht' => hts t' (List.mem_cons_of_mem _ ht')) q hq
      intro q' hq'
      rcases List.mem_append.mp hq' with h | h
      · exact hacc q' h
      · rcases List.mem_singleton.mp h with rfl
        exact hts t (List.mem_cons_self _ _) _ _

theorem fillGeneralTemplates_forall {P : String → Prop} (role : String) (num : Int)
    (ts : List (String → String)) (acc : List String)
    (hacc : ∀ q ∈ acc, P q)
    (hts : ∀ t ∈ ts, ∀ r, P (t r)) :
    ∀ q ∈ fillGeneralTemplates role num ts acc, P q := by
  induction ts generalizing acc with
  | nil => simpa [fillGeneralTemplates] using hacc
  | cons t ts ih =>
    intro q hq
    simp only [fillGeneralTemplates] at hq
    split at hq
    · exact hacc q hq
    · refine ih _ ?_ (fun t' ht' => hts t' (List.mem_cons_of_mem _ ht')) q hq
      intro q' hq'
      rcases List.mem_append.mp hq' with h | h
      · exact hacc q' h
      · rcases List.mem_singleton.mp h with rfl
        exact hts t (List.mem_cons_self _ _) _

theorem fillFillerGo_forall {P : String → Prop} (keywords : List String) (num : Int)
    (hfill : ∀ kw, P ("What best practices have you developed around " ++ kw ++ "?")) :
    ∀ (fuel : Nat) (acc : List String), (∀ q ∈ acc, P q) →
      ∀ q ∈ fillFillerGo keywords num fuel acc, P q := by
  intro fuel
  induction fuel with
  | zero => intro acc hacc; simpa [fillFillerGo] using hacc
  | succ fuel ih =>
    intro acc hacc q hq
    simp only [fillFillerGo] at hq
    split at hq
    · refine ih _ ?_ q hq
      intro q' hq'
      rcases List.mem_append.mp hq' with h1 | h1
      · exact hacc q' h1
      · rcases List.mem_singleton.mp h1 with rfl
        exact hfill _
    · exact hacc q hq

theorem fillFiller_forall {P : String → Prop} (keywords : List String) (num : Int)
    (hfill : ∀ kw, P ("What best practices have you developed around " ++ kw ++ "?"))
    (acc : List String) (hacc : ∀ q ∈ acc, P q) :
    ∀ q ∈ fillFiller keywords num acc, P q :=
  fillFillerGo_forall keywords num hfill _ acc hacc

theorem dqc_pos (n : Int) (hn : 0 < n) : desiredQuestionCount (some n) = min n 20 := by
  simp only [desiredQuestionCount]
  rw [if_pos ⟨by omega, hn⟩]

theorem length_pyTake_fillFiller (K : List String) (m : Int) (A : List String)
    (hm : 0 ≤ m) : (pyTake m (fillFiller K m A)).length = m.toNat := by
  simp only [pyTake, if_pos hm, List.length_take]
  have h := fillFiller_ge K m A
  omega

/-- The fallback generator returns exactly `num_questions` questions for any
non-negative request. -/
theorem generateQuestionsLocally_length (jd jr : Option String) (m : Int)
    (hm : 0 ≤ m) : (generateQuestionsLocally jd m jr).length = m.toNat := by
  unfold generateQuestionsLocally
  dsimp only
  exact length_pyTake_fillFiller _ m _ hm

theorem mem_pyTake {α : Type _} (n : Int) (l : List α) : ∀ q ∈ pyTake n l, q ∈ l := by
  intro q hq
  unfold pyTake at hq
  split at hq <;> exact List.take_subset _ _ hq

/-- Every question the fallback generator can produce comes from one of the
fixed templates or the filler, and therefore ends in `'?'` or `'.'`. -/
theorem generateQuestionsLocally_last (jd jr : Option String) (m : Int) :
    ∀ q ∈ generateQuestionsLocally jd m jr, endsQorDot q := by
  intro q hq
  unfold generateQuestionsLocally at hq
  dsimp only at hq
  have hq' := mem_pyTake _ _ q hq
  have hfill : ∀ kw : String,
      endsQorDot ("What best practices have you developed around " ++ kw ++ "?") :=
    fun kw => Or.inl (by rw [getLast?_str_append _ "?" (by decide)]; rfl)
  have hnil : ∀ q' ∈ ([] : List String), endsQorDot q' :=
    fun q' hq'' => absurd hq'' (List.not_mem_nil q')
  exact @fillFiller_forall endsQorDot _ m hfill _
    (@fillGeneralTemplates_forall endsQorDot _ m TEMPLATES_GENERAL _
      (@fillKeywordTemplates_forall endsQorDot _ _ m TEMPLATES_KEYWORD [] hnil
        (fun t ht r k => templatesKeyword_last t ht r k))
      (fun t ht r => templatesGeneral_last t ht r))
    q hq' 

/-- C5 (amended): for every requested `num_questions > 0` the fallback result
contains exactly `min(num_questions, 20)` questions, and every fallback
question ends with `'?'` or `'.'` (two of the fixed templates end in a
period, so "ends with `'?'`" does not hold literally); the LLM-path parse
can return fewer than the requested count (see the counterexample), so the
exact count is guaranteed on the fallback path only. -/
theorem c5_fallback_amended (n : Int) (hn : 0 < n) (jd jr : Option String) :
    ((generateQuestionsLocally jd (desiredQuestionCount (some n)) jr).length : Int)
        = min n 20
    ∧ ∀ q ∈ generateQuestionsLocally jd (desiredQuestionCount (some n)) jr,
        endsQorDot q := by
  have hd : desiredQuestionCount (some n) = min n 20 := dqc_pos n hn
  constructor
  · rw [hd]
    have hl := generateQuestionsLocally_length jd jr (min n 20) (by omega)
    rw [hl]
    omega
  · rw [hd]
    exact generateQuestionsLocally_last jd jr (min n 20)

/-- C5 amended, instantiated at `num_questions = 3` with no job data. -/
theorem c5_fallback_amended_witness :
    ((generateQuestionsLocally none (desiredQuestionCount (some 3)) none).length : Int)
        = min 3 20
    ∧ ∀ q ∈ generateQuestionsLocally none (desiredQuestionCount (some 3)) none,
        endsQorDot q :=
  c5_fallback_amended 3 (by decide) none none

/-! ## C7: are gateway failures ever surfaced to the client? -/

def c7ScoreReq : ScoringRequest :=
  { transcript := "I communicate clearly and collaborate with teammates."
    question := "How do you work with teams?" }

def c7EmptyMsgReq : GenerateRequest :=
  { messages := [⟨"user", ""⟩], prompt := none }

/-- C7 counterexample: gateway failures ARE surfaced on two paths.
(i) The standalone scoring endpoint re-raises `call_ollama_gemma` failures to
the client as HTTP 504/503 — it has no fallback.  (ii) A generation request
whose only content is a message with empty text (so neither a job
description nor a job role can be derived) turns a gateway failure into the
client-visible `ValueError` of the `except` handler. -/
theorem c7_gateway_error_surfaced_counterexample :
    scoreInterviewResponse c7ScoreReq ScoreGw.timeoutExn
      = .error ⟨504, "Scoring service timed out"⟩
    ∧ scoreInterviewResponse c7ScoreReq (ScoreGw.requestExn "connection refused")
      = .error ⟨503, "Scoring service unavailable"⟩
    ∧ buildQuestionsPayload c7EmptyMsgReq (GenGw.exn "connection refused")
      = .error (.invalidInput
          "Job description or job role is required to generate questions") := by
  decide

/-- The gateway outcomes the claim calls failures: a raised exception
(network error / timeout) or a non-2xx response. -/
def genGwFails : GenGw → Bool
  | .resp status _ => status ≠ 200
  | .exn _ => true

theorem dqc_bounds (nq : Option Int) :
    1 ≤ desiredQuestionCount nq ∧ desiredQuestionCount nq ≤ 20 := by
  cases nq with
  | none => simp [desiredQuestionCount]
  | some n =>
    simp only [desiredQuestionCount]
    by_cases hc : n ≠ 0 ∧ 0 < n
    · rw [if_pos hc]
      exact ⟨le_min (by omega) (by omega), min_le_right _ _⟩
    · rw [if_neg hc]
      omega

/-- C7 (amended): for question generation, whenever the derived job
description or the job role is present (truthy), every gateway failure —
exception or non-2xx status — is caught and answered with the deterministic
fallback payload: `used_fallback = true`, `source = "fallback"`, the
questions from `generate_questions_locally`, and the triggering error
recorded in `fallback_reason`.  (Without a derivable job description/role
the generation handler re-raises, and the standalone scoring endpoint always
surfaces gateway failures as 503/504 — see the counterexample.) -/
theorem c7_generation_fallback_amended (req : GenerateRequest) (gw : GenGw)
    (hgw : genGwFails gw = true)
    (hjd : strOptTruthy (derivedJobDescription req) = true
      ∨ strOptTruthy req.job_role = true) :
    ∃ p, buildQuestionsPayload req gw = .ok p
      ∧ p.used_fallback = true
      ∧ p.source = "fallback"
      ∧ p.questions = generateQuestionsLocally (derivedJobDescription req)
          (desiredQuestionCount req.num_questions) req.job_role
      ∧ p.fallback_reason.isSome = true := by
  have hnum := dqc_bounds req.num_questions
  have hjd' : ¬(derivedJobDescription req = none ∧ req.job_role = none) := by
    rintro ⟨h1, h2⟩
    rcases hjd with h | h
    · rw [h1] at h
      simp [strOptTruthy] at h
    · rw [h2] at h
      simp [strOptTruthy] at h
  unfold buildQuestionsPayload
  dsimp only
  rw [if_neg (by omega)]
  rw [if_neg (by
    rintro ⟨h1, h2, h3, h4⟩
    rcases hjd with h | h
    · rw [h] at h1
      exact absurd rfl h1
    · rw [h] at h2
      exact absurd rfl h2)]
  cases gw with
  | exn m =>
    dsimp only
    rw [if_neg hjd']
    exact ⟨_, rfl, rfl, rfl, rfl, rfl⟩
  | resp status content =>
    have hst : status ≠ 200 := by
      simpa [genGwFails, decide_eq_true_eq] using hgw
    split
    · rename_i heq
      injection heq with h1 h2
      exact absurd h1 hst
    · rw [if_neg hjd']
      exact ⟨_, rfl, rfl, rfl, rfl, rfl⟩
    · rename_i heq
      exact GenGw.noConfusion heq

/-- C7 amended, instantiated: a connection failure on a request carrying a
job role produces the fallback payload with the error recorded. -/
theorem c7_generation_fallback_amended_witness :
    ∃ p, buildQuestionsPayload c5FallbackReq (GenGw.exn "connection refused") = .ok p
      ∧ p.used_fallback = true
      ∧ p.source = "fallback"
      ∧ p.questions = generateQuestionsLocally (derivedJobDescription c5FallbackReq)
          (desiredQuestionCount c5FallbackReq.num_questions) c5FallbackReq.job_role
      ∧ p.fallback_reason.isSome = true :=
  c7_generation_fallback_amended c5FallbackReq (GenGw.exn "connection refused")
    (by decide) (Or.inr (by decide))

/-! ## C8: recovery rules of `parse_evaluation_scores` -/

/-- No line of the evaluation text contains the given marker (after the
per-line strip the parser applies). -/
def noMarkerLine (text marker : String) : Bool :=
  (splitOnChar '\n' text.data).all (fun l => !(containsSub marker.data (pyStripL l)))

theorem foldl_scoreLineStep_const (f : EvalScores → ℚ) (lines : List String) :
    ∀ init, (∀ s l, l ∈ lines → f (scoreLineStep s l) = f s) →
      f (lines.foldl scoreLineStep init) = f init := by
  induction lines with
  | nil => intro init _; rfl
  | cons l ls ih =>
    intro init hstep
    rw [List.foldl_cons, ih _ (fun s l' hl' => hstep s l' (List.mem_cons_of_mem _ hl'))]
    exact hstep init l (List.mem_cons_self _ _)

theorem scoreLineStep_keeps_clarity (s : EvalScores) (l : String)
    (h : containsSub "Clarity & Structure:".data (pyStripL l.data) = false) :
    (scoreLineStep s l).clarity_structure = s.clarity_structure := by
  unfold scoreLineStep
  dsimp only
  split_ifs <;> first | rfl | simp_all

theorem scoreLineStep_keeps_grammar (s : EvalScores) (l : String)
    (h : containsSub "Grammar & Vocabulary:".data (pyStripL l.data) = false) :
    (scoreLineStep s l).grammar_vocabulary = s.grammar_vocabulary := by
  unfold scoreLineStep
  dsimp only
  split_ifs <;> first | rfl | simp_all

theorem scoreLineStep_keeps_conciseness (s : EvalScores) (l : String)
    (h : containsSub "Conciseness".data (pyStripL l.data) = false) :
    (scoreLineStep s l).conciseness_relevance = s.conciseness_relevance := by
  unfold scoreLineStep
  dsimp only
  split_ifs <;> first | rfl | simp_all

theorem scoreLineStep_keeps_professionalism (s : EvalScores) (l : String)
    (h : containsSub "Professionalism:".data (pyStripL l.data) = false) :
    (scoreLineStep s l).professionalism = s.professionalism := by
  unfold scoreLineStep
  dsimp only
  split_ifs <;> first | rfl | simp_all

theorem scoreLineStep_keeps_confidence (s : EvalScores) (l : String)
    (h : containsSub "Confidence:".data (pyStripL l.data) = false) :
    (scoreLineStep s l).confidence_delivery = s.confidence_delivery := by
  unfold scoreLineStep
  dsimp only
  split_ifs <;> first | rfl | simp_all

theorem scoreLineStep_keeps_engagement (s : EvalScores) (l : String)
    (h : containsSub "Engagement:".data (pyStripL l.data) = false) :
    (scoreLineStep s l).engagement_adaptability = s.engagement_adaptability := by
  unfold scoreLineStep
  dsimp only
  split_ifs <;> first | rfl | simp_all

theorem scoreLineStep_keeps_linguistic (s : EvalScores) (l : String)
    (h : containsSub "Linguistic Avg:".data (pyStripL l.data) = false) :
    (scoreLineStep s l).linguistic_avg = s.linguistic_avg := by
  unfold scoreLineStep
  dsimp only
  split_ifs <;> first | rfl | simp_all

theorem scoreLineStep_keeps_behavioral (s : EvalScores) (l : String)
    (h : containsSub "Behavioral Avg:".data (pyStripL l.data) = false) :
    (scoreLineStep s l).behavioral_avg = s.behavioral_avg := by
  unfold scoreLineStep
  dsimp only
  split_ifs <;> first | rfl | simp_all

theorem scoreLineStep_keeps_final (s : EvalScores) (l : String)
    (h : containsSub "Final Score:".data (pyStripL l.data) = false) :
    (scoreLineStep s l).final_score = s.final_score := by
  unfold scoreLineStep
  dsimp only
  split_ifs <;> first | rfl | simp_all

/-- Turn `noMarkerLine` into the per-line hypothesis of the fold lemma. -/
theorem noMarkerLine_elim (text marker : String) (h : noMarkerLine text marker = true) :
    ∀ l ∈ (splitOnChar '\n' text.data).map List.asString,
      containsSub marker.data (pyStripL l.data) = false := by
  intro l hl
  rcases List.mem_map.mp hl with ⟨cl, hcl, rfl⟩
  have := List.all_eq_true.mp h cl hcl
  simpa using this

/-- C8: score parsing is a total function (the embedding never raises), and
when no line carries an explicit `Linguistic Avg:`/`Behavioral Avg:` marker
the average is recomputed as the mean of its three sub-scores; when no line
carries `Final Score:` the final score is the equal-weight mean of the two
averages; a sub-score whose marker appears on no line keeps the default 0. -/
theorem c8_parse_score_recovery (text : String) :
    (noMarkerLine text "Linguistic Avg:" = true →
      (parseEvaluationScores text).linguistic_avg
        = ((parseEvaluationScores text).clarity_structure
            + (parseEvaluationScores text).grammar_vocabulary
            + (parseEvaluationScores text).conciseness_relevance) / 3)
    ∧ (noMarkerLine text "Behavioral Avg:" = true →
      (parseEvaluationScores text).behavioral_avg
        = ((parseEvaluationScores text).professionalism
            + (parseEvaluationScores text).confidence_delivery
            + (parseEvaluationScores text).engagement_adaptability) / 3)
    ∧ (noMarkerLine text "Final Score:" = true →
      (parseEvaluationScores text).final_score
        = (parseEvaluationScores text).linguistic_avg * (1 / 2)
          + (parseEvaluationScores text).behavioral_avg * (1 / 2))
    ∧ (noMarkerLine text "Clarity & Structure:" = true →
      (parseEvaluationScores text).clarity_structure = 0)
    ∧ (noMarkerLine text "Grammar & Vocabulary:" = true →
      (parseEvaluationScores text).grammar_vocabulary = 0)
    ∧ (noMarkerLine text "Conciseness" = true →
      (parseEvaluationScores text).conciseness_relevance = 0)
    ∧ (noMarkerLine text "Professionalism:" = true →
      (parseEvaluationScores text).professionalism = 0)
    ∧ (noMarkerLine text "Confidence:" = true →
      (parseEvaluationScores text).confidence_delivery = 0)
    ∧ (noMarkerLine text "Engagement:" = true →
      (parseEvaluationScores text).engagement_adaptability = 0) := by
  refine ⟨?_, ?_, ?_, ?_, ?_, ?_, ?_, ?_, ?_⟩ <;> intro h <;>
    [ (have h0 : (((splitOnChar '\n' text.data).map List.asString).foldl
          scoreLineStep initScores).linguistic_avg = 0 :=
        foldl_scoreLineStep_const (fun s => s.linguistic_avg) _ initScores
          (fun s l hl => scoreLineStep_keeps_linguistic s l (noMarkerLine_elim _ _ h l hl)));
      (have h0 : (((splitOnChar '\n' text.data).map List.asString).foldl
          scoreLineStep initScores).behavioral_avg = 0 :=
        foldl_scoreLineStep_const (fun s => s.behavioral_avg) _ initScores
          (fun s l hl => scoreLineStep_keeps_behavioral s l (noMarkerLine_elim _ _ h l hl)));
      (have h0 : (((splitOnChar '\n' text.data).map List.asString).foldl
          scoreLineStep initScores).final_score = 0 :=
        foldl_scoreLineStep_const (fun s => s.final_score) _ initScores
          (fun s l hl => scoreLineStep_keeps_final s l (noMarkerLine_elim _ _ h l hl)));
      (have h0 : (((splitOnChar '\n' text.data).map List.asString).foldl
          scoreLineStep initScores).clarity_structure = 0 :=
        foldl_scoreLineStep_const (fun s => s.clarity_structure) _ initScores
          (fun s l hl => scoreLineStep_keeps_clarity s l (noMarkerLine_elim _ _ h l hl)));
      (have h0 : (((splitOnChar '\n' text.data).map List.asString).foldl
          scoreLineStep initScores).grammar_vocabulary = 0 :=
        foldl_scoreLineStep_const (fun s => s.grammar_vocabulary) _ initScores
          (fun s l hl => scoreLineStep_keeps_grammar s l (noMarkerLine_elim _ _ h l hl)));
      (have h0 : (((splitOnChar '\n' text.data).map List.asString).foldl
          scoreLineStep initScores).conciseness_relevance = 0 :=
        foldl_scoreLineStep_const (fun s => s.conciseness_relevance) _ initScores
          (fun s l hl => scoreLineStep_keeps_conciseness s l (noMarkerLine_elim _ _ h l hl)));
      (have h0 : (((splitOnChar '\n' text.data).map List.asString).foldl
          scoreLineStep initScores).professionalism = 0 :=
        foldl_scoreLineStep_const (fun s => s.professionalism) _ initScores
          (fun s l hl => scoreLineStep_keeps_professionalism s l (noMarkerLine_elim _ _ h l hl)));
      (have h0 : (((splitOnChar '\n' text.data).map List.asString).foldl
          scoreLineStep initScores).confidence_delivery = 0 :=
        foldl_scoreLineStep_const (fun s => s.confidence_delivery) _ initScores
          (fun s l hl => scoreLineStep_keeps_confidence s l (noMarkerLine_elim _ _ h l hl)));
      (have h0 : (((splitOnChar '\n' text.data).map List.asString).foldl
          scoreLineStep initScores).engagement_adaptability = 0 :=
        foldl_scoreLineStep_const (fun s => s.engagement_adaptability) _ initScores
          (fun s l hl => scoreLineStep_keeps_engagement s l (noMarkerLine_elim _ _ h l hl)))] <;>
    (unfold parseEvaluationScores; dsimp only; split_ifs <;> simp_all)

def c8DemoText : String :=
  "Clarity & Structure: 8/10\nGrammar & Vocabulary: 9/10\nConciseness: 7/10\nProfessionalism: 9/10\nConfidence: 7/10\nEngagement: 8/10"

/-- C8 instantiated on an evaluation text with the six sub-score lines but no
explicit average or final-score lines. -/
theorem c8_parse_score_recovery_witness :
    ((parseEvaluationScores c8DemoText).linguistic_avg
        = ((parseEvaluationScores c8DemoText).clarity_structure
            + (parseEvaluationScores c8DemoText).grammar_vocabulary
            + (parseEvaluationScores c8DemoText).conciseness_relevance) / 3)
    ∧ ((parseEvaluationScores c8DemoText).behavioral_avg
        = ((parseEvaluationScores c8DemoText).professionalism
            + (parseEvaluationScores c8DemoText).confidence_delivery
            + (parseEvaluationScores c8DemoText).engagement_adaptability) / 3)
    ∧ ((parseEvaluationScores c8DemoText).final_score
        = (parseEvaluationScores c8DemoText).linguistic_avg * (1 / 2)
          + (parseEvaluationScores c8DemoText).behavioral_avg * (1 / 2)) :=
  ⟨(c8_parse_score_recovery c8DemoText).1 (by decide),
   (c8_parse_score_recovery c8DemoText).2.1 (by decide),
   (c8_parse_score_recovery c8DemoText).2.2.1 (by decide)⟩

/-! ## C3: `GetResults` on non-completed and completed sessions -/

def c3StartReq : InterviewStartRequest :=
  { questions := some
      ["What interests you about this position and our team?",
       "Where do you see yourself in five years from now?"] }

def c3State0 : SysState :=
  (startInterview c3StartReq (GenGw.exn "gateway down")).toOption.getD
    (mkSessionState c3StartReq [] "client" false)

/-- Submitting only the last index (1) of the 2-question session completes it
with a single response entry. -/
def c3State1 : SysState := (submitOp c3State0 1 none).1

/-- C3 counterexample: a session completed by submitting only
`question_index = 1` has 2 questions but `GetResults` returns exactly 1
scored entry — the handler iterates the stored responses, not the question
indices, so a completed session need not produce `N` entries. -/
theorem c3_results_count_counterexample :
    startInterview c3StartReq (GenGw.exn "gateway down") = Except.ok c3State0
    ∧ c3State1.session.status = SessionStatus.completed
    ∧ c3State1.session.questions.length = 2
    ∧ ((getResultsOp c3State1 (ResGw.exn "connection refused")).2.toOption.map
        (fun p => (p.responses.length, p.total_questions))) = some (1, 2) := by
  decide

def qiLe (a b : MergedResp) : Prop := a.question_index ≤ b.question_index

def qiLeS (a b : ScoredResponse) : Prop := a.question_index ≤ b.question_index

theorem length_insertByQi (x : MergedResp) (l : List MergedResp) :
    (insertByQi x l).length = l.length + 1 := by
  induction l with
  | nil => rfl
  | cons y ys ih =>
    unfold insertByQi
    split
    · simp [ih]
    · simp

theorem length_sortByQi (l : List MergedResp) : (sortByQi l).length = l.length := by
  induction l with
  | nil => rfl
  | cons x xs ih => simp [sortByQi, length_insertByQi, ih]

theorem mem_insertByQi (x y : MergedResp) (l : List MergedResp) :
    y ∈ insertByQi x l → y = x ∨ y ∈ l := by
  induction l with
  | nil => intro h; simpa [insertByQi] using h
  | cons z zs ih =>
    intro h
    unfold insertByQi at h
    split at h
    · rcases List.mem_cons.mp h with h1 | h1
      · exact Or.inr (h1 ▸ List.mem_cons_self _ _)
      · rcases ih h1 with h2 | h2
        · exact Or.inl h2
        · exact Or.inr (List.mem_cons_of_mem _ h2)
    · rcases List.mem_cons.mp h with h1 | h1
      · exact Or.inl h1
      · exact Or.inr h1

theorem pairwise_insertByQi (x : MergedResp) (l : List MergedResp)
    (h : l.Pairwise qiLe) : (insertByQi x l).Pairwise qiLe := by
  induction l with
  | nil => simp [insertByQi, List.pairwise_cons]
  | cons y ys ih =>
    rcases List.pairwise_cons.mp h with ⟨hy, hys⟩
    unfold insertByQi
    split
    · rename_i hc
      refine List.pairwise_cons.mpr ⟨?_, ih hys⟩
      intro z hz
      rcases mem_insertByQi x z ys hz with rfl | h2
      · exact le_of_lt hc
      · exact hy z h2
    · rename_i hc
      refine List.pairwise_cons.mpr ⟨?_, h⟩
      intro z hz
      rcases List.mem_cons.mp hz with rfl | h2
      · exact le_of_not_lt hc
      · exact le_trans (le_of_not_lt hc) (hy z h2)

theorem pairwise_sortByQi (l : List MergedResp) : (sortByQi l).Pairwise qiLe := by
  induction l with
  | nil => simp [sortByQi]
  | cons x xs ih => exact pairwise_insertByQi x _ ih

theorem scoreOne_ok_qi (questions : List String) (gw : ResGw) (r : MergedResp)
    (x : ScoredResponse × ℚ) (h : scoreOne questions gw r = .ok x) :
    x.1.question_index = r.question_index := by
  unfold scoreOne at h
  dsimp only at h
  split at h
  · exact absurd h (by simp)
  · injection h with h2
    rw [← h2]

theorem scoreAll_ok_map_qi (questions : List String) (gw : ResGw) :
    ∀ (l : List MergedResp) (out : List (ScoredResponse × ℚ)),
      scoreAll questions gw l = .ok out →
      out.map (fun x => x.1.question_index) = l.map (·.question_index) := by
  intro l
  induction l with
  | nil =>
    intro out h
    simp only [scoreAll] at h
    injection h with h2
    rw [← h2]
    rfl
  | cons r rs ih =>
    intro out h
    simp only [scoreAll] at h
    split at h
    · exact absurd h (by simp)
    · rename_i x hx
      split at h
      · exact absurd h (by simp)
      · rename_i xs hxs
        injection h with h2
        rw [← h2]
        simp only [List.map_cons]
        rw [scoreOne_ok_qi questions gw r x hx, ih xs hxs]

/-- C3 (amended): `GetResults` on a non-completed session fails with
`FailedPrecondition` (HTTP 400); the handler never writes the session back,
so the state is unchanged in every case; and on success it returns exactly
one scored entry per *stored response* (not per question — see the
counterexample), sorted by `question_index` ascending regardless of
submission order. -/
theorem c3_results_amended (σ : SysState) (gw : ResGw) :
    (σ.session.status ≠ SessionStatus.completed →
       getResultsOp σ gw = (σ, .error (.failedPrecondition "Interview not yet completed")))
    ∧ (getResultsOp σ gw).1 = σ
    ∧ (∀ p, (getResultsOp σ gw).2 = .ok p →
        p.total_questions = σ.session.questions.length
        ∧ p.responses.length = σ.session.responses.length
        ∧ p.responses.Pairwise qiLeS) := by
  refine ⟨?_, ?_, ?_⟩
  · intro h
    unfold getResultsOp
    rw [if_pos h]
  · unfold getResultsOp
    dsimp only
    split
    · rfl
    · split <;> rfl
  · intro p hp
    unfold getResultsOp at hp
    dsimp only at hp
    split at hp
    · exact absurd hp (by simp)
    · split at hp
      · exact absurd hp (by simp)
      · rename_i scored hscored
        injection hp with hp2
        rw [← hp2]
        refine ⟨rfl, ?_, ?_⟩
        · have hmap := scoreAll_ok_map_qi _ gw _ scored hscored
          have hlen : scored.length = (getSessionResponsesWithTranscripts σ).length := by
            have := congrArg List.length hmap
            simpa using this
          simp only [List.length_map, hlen, getSessionResponsesWithTranscripts,
            length_sortByQi]
        · have hsorted := pairwise_sortByQi
            (σ.session.responses.map (respWithTranscript σ.transcripts))
          have h1 : ((getSessionResponsesWithTranscripts σ).map
              (·.question_index)).Pairwise (· ≤ ·) := by
            unfold getSessionResponsesWithTranscripts
            exact List.Pairwise.map (fun m : MergedResp => m.question_index)
              (fun a b (hh : qiLe a b) => hh) hsorted
          have hmap := scoreAll_ok_map_qi _ gw _ scored hscored
          have h2 : (scored.map (fun x => x.1.question_index)).Pairwise (· ≤ ·) := by
            rw [hmap]
            exact h1
          have h3 : scored.Pairwise
              (fun a b => a.1.question_index ≤ b.1.question_index) :=
            List.pairwise_map.mp h2
          exact List.Pairwise.map (Prod.fst : ScoredResponse × ℚ → ScoredResponse)
            (fun a b (hh : a.1.question_index ≤ b.1.question_index) => hh) h3

/-- C3 amended, instantiated: results on the still-active 2-question session
fail with the 400 precondition error and leave the state unchanged. -/
theorem c3_results_amended_witness :
    getResultsOp c3State0 (ResGw.exn "connection refused")
      = (c3State0, .error (.failedPrecondition "Interview not yet completed")) :=
  (c3_results_amended c3State0 (ResGw.exn "connection refused")).1 (by decide)

end HRAgent
